import Mathlib

/-!
Verification of the chat relay backend (Express server embedded in the
repository README) and the frontend zustand chat store.

The backend embedding follows the source of the `/chat` and `/chat-stream`
handlers: Joi validation schema, API-key guard, upstream axios call and its
catch-block error mapping, and the SSE stream relay loop. The rate limiter
configuration (window 15 minutes, capacity 100) is in the source; the
fixed-window algorithm of the express-rate-limit dependency is modelled from
the specification. Nondeterministic inputs of the real code (the upstream
outcome, the JSON parse of a stream record, fresh ids, the clock) are passed
as explicit parameters.
-/

namespace MyChatbot

/-- one turn of the conversation history: a raw record with a `role` and a
`content` field, as destructured from the request body. -/
structure HistoryTurn where
  role : String
  content : String
deriving DecidableEq, Repr

/-- an inbound request body for `/chat` or `/chat-stream`: `message` may be
absent, `history` is optional. -/
structure ChatPayload where
  message : Option String
  history : Option (List HistoryTurn)
deriving DecidableEq, Repr

/-- one history item check of the Joi schema: `role` must be the string
`user` or `assistant`, `content` a required non-empty string. -/
def validTurn (t : HistoryTurn) : Bool :=
  (t.role == "user" || t.role == "assistant") && t.content != ""

/-- the `messageSchema` Joi validation: `message` is a required string of
length 1 to 1000 (Joi measures the raw string, it does not trim), `history`
is an optional array of at most 50 valid turns. -/
def validatePayload (p : ChatPayload) : Bool :=
  match p.message with
  | none => false
  | some m =>
    decide (1 ≤ m.length) && decide (m.length ≤ 1000) &&
    (match p.history with
     | none => true
     | some h => decide (h.length ≤ 50) && h.all validTurn)

/-- the system prompt turn the handler prepends to every upstream request. -/
def systemTurn : HistoryTurn :=
  { role := "system", content := "You are a helpful chatbot." }

/-- the `messages` array sent upstream: system prompt, then the history
(defaulted to empty), then the user message. -/
def sentMessages (m : String) (h : Option (List HistoryTurn)) : List HistoryTurn :=
  systemTurn :: (h.getD [] ++ [{ role := "user", content := m }])

/-- the outcome of the buffered upstream axios call, as the catch block
distinguishes it: success with a reply, a response with an HTTP status,
a timeout (error code ECONNABORTED), or another network failure. -/
inductive UpstreamOutcome where
  | success (reply : String)
  | httpError (status : Nat)
  | timeout
  | networkError
deriving DecidableEq, Repr

/-- what a `/chat` call produces: the HTTP status and body text of the
response, whether the upstream call was attempted, and the messages sent
upstream (empty when no call was made). -/
structure ChatResult where
  status : Nat
  body : String
  upstreamCalled : Bool
  sent : List HistoryTurn
deriving DecidableEq, Repr

/-- the JS truthiness check on `process.env.OPENAI_API_KEY`: the key must be
set and non-empty. -/
def keyConfigured (k : Option String) : Bool :=
  match k with
  | none => false
  | some s => s != ""

/-- the POST `/chat` handler: validate the body (400 on failure), check the
API key (500 when missing), otherwise call upstream and map the outcome:
200 with the reply on success, 408 on timeout, 429 on an upstream 429,
500 on an upstream 401 and on every other failure. -/
def chatHandler (apiKey : Option String) (p : ChatPayload)
    (out : UpstreamOutcome) : ChatResult :=
  match p.message with
  | none => { status := 400, body := "Invalid input", upstreamCalled := false, sent := [] }
  | some m =>
    if validatePayload p then
      if keyConfigured apiKey then
        let sent := sentMessages m p.history
        match out with
        | .success r => { status := 200, body := r, upstreamCalled := true, sent := sent }
        | .timeout =>
          { status := 408, body := "Request timeout", upstreamCalled := true, sent := sent }
        | .httpError s =>
          if s == 429 then
            { status := 429, body := "Rate limit exceeded", upstreamCalled := true, sent := sent }
          else if s == 401 then
            { status := 500, body := "Authentication failed", upstreamCalled := true, sent := sent }
          else
            { status := 500, body := "Something went wrong", upstreamCalled := true, sent := sent }
        | .networkError =>
          { status := 500, body := "Something went wrong", upstreamCalled := true, sent := sent }
      else
        { status := 500, body := "API key not configured", upstreamCalled := false, sent := [] }
    else
      { status := 400, body := "Invalid input", upstreamCalled := false, sent := [] }

/-- the result of `JSON.parse` on one stream record followed by the optional
chaining on choices, delta and content: either the parse throws, or it
yields an optional content string. The JSON parser itself is external, so
the relay is parameterized over this function. Strings inside the relay are
handled as character lists so that every operation computes. -/
inductive ParseResult where
  | fail
  | ok (content : Option String)
deriving DecidableEq, Repr

/-- an event the `/chat-stream` handler writes to the client: a content
fragment, the terminal `[DONE]` marker, or a stream-embedded error event. -/
inductive OutEvent where
  | content (c : String)
  | doneMark
  | errorEvent (msg : String)
deriving DecidableEq, Repr

/-- the characters of the SSE record marker the handler matches with
`line.startsWith` before slicing it off. -/
def dataMarker : List Char := ("data: ").data

/-- the characters of the end-of-stream marker. -/
def doneChars : List Char := ("[DONE]").data

/-- the JS `chunk.toString().split` on a newline: splits a character list at
every newline, keeping empty pieces, as JS split does. -/
def splitNl (acc : List Char) : List Char → List (List Char)
  | [] => [acc.reverse]
  | c :: cs =>
    if c = '\n' then acc.reverse :: splitNl [] cs
    else splitNl (c :: acc) cs

/-- the per-line body of the chunk data handler: lines that do not start
with the data marker are skipped; the payload after the six marker
characters is compared with the end marker (write the terminal marker, end
the response and stop); otherwise it is parsed and a non-empty content is
written, a parse failure or missing content being ignored. Returns the
events written and whether the response was ended by the end marker. -/
def processLines (parse : List Char → ParseResult) :
    List (List Char) → List OutEvent × Bool
  | [] => ([], false)
  | line :: rest =>
    if dataMarker.isPrefixOf line then
      let d := line.drop 6
      if d = doneChars then ([OutEvent.doneMark], true)
      else
        let here : List OutEvent :=
          match parse d with
          | ParseResult.ok (some c) => if c = "" then [] else [OutEvent.content c]
          | _ => []
        let r := processLines parse rest
        (here ++ r.1, r.2)
    else
      processLines parse rest

/-- the chunk loop of the stream data handler: each chunk is split on
newlines and its lines processed in arrival order; once the response has
been ended by the end marker, later chunks produce nothing. -/
def processChunks (parse : List Char → ParseResult) :
    List (List Char) → List OutEvent × Bool
  | [] => ([], false)
  | ch :: rest =>
    let r := processLines parse (splitNl [] ch)
    if r.2 then (r.1, true)
    else
      let r2 := processChunks parse rest
      (r.1 ++ r2.1, r2.2)

/-- how the upstream streaming call went: the axios post itself rejected
(outer catch), or a stream was opened that delivered some chunks and then
either ended or raised a stream error event. -/
inductive StreamOutcome where
  | openFailed
  | opened (chunks : List (List Char)) (errored : Bool)
deriving DecidableEq, Repr

/-- what a `/chat-stream` call produces: HTTP status of the head written
before any upstream work, the SSE events written, whether the upstream
dispatch was attempted, and the messages sent upstream. -/
structure StreamResult where
  status : Nat
  events : List OutEvent
  dispatched : Bool
  sent : List HistoryTurn
deriving DecidableEq, Repr

/-- the POST `/chat-stream` handler: it destructures the body with no
validation, writes a 200 SSE head, and always attempts the upstream post.
If the post rejects it writes one error event and ends; otherwise it relays
the chunks, and when the stream errors before `[DONE]` it writes one error
event and ends. -/
def chatStreamHandler (parse : List Char → ParseResult) (message : String)
    (history : Option (List HistoryTurn)) (oc : StreamOutcome) : StreamResult :=
  match oc with
  | .openFailed =>
    { status := 200, events := [OutEvent.errorEvent "Request failed"],
      dispatched := true, sent := sentMessages message history }
  | .opened chunks errored =>
    let r := processChunks parse chunks
    { status := 200,
      events := if r.2 then r.1
                else if errored then r.1 ++ [OutEvent.errorEvent "Stream error"]
                else r.1,
      dispatched := true, sent := sentMessages message history }

/-- the fixed-window state for one client identity: the end of the current
window and the number of requests counted in it. -/
structure RateWindow where
  windowEnd : Nat
  count : Nat
deriving DecidableEq, Repr

/-- Modelled from the spec: the express-rate-limit fixed-window counter that
the source configures with a 15-minute window and capacity 100 (the
dependency itself is not part of the repository source). On each call, if
no window exists for the identity or the current time has passed the
window's end, a new window starts with count 1 and the request is admitted;
otherwise the count increments and the request is admitted iff the new
count is at most the capacity. -/
def rateStep (windowMs cap : Nat) (st : Option RateWindow) (now : Nat) :
    Bool × RateWindow :=
  match st with
  | none => (true, { windowEnd := now + windowMs, count := 1 })
  | some w =>
    if w.windowEnd ≤ now then
      (true, { windowEnd := now + windowMs, count := 1 })
    else
      let c := w.count + 1
      (decide (c ≤ cap), { windowEnd := w.windowEnd, count := c })

/-- a sequence of calls through the limiter for one identity, returning the
admit/reject decision of each call in order together with the final window
state. -/
def rateRunSt (windowMs cap : Nat) (st : Option RateWindow) :
    List Nat → List Bool × Option RateWindow
  | [] => ([], st)
  | t :: ts =>
    let r := rateStep windowMs cap st t
    let rs := rateRunSt windowMs cap (some r.2) ts
    (r.1 :: rs.1, rs.2)

/-- the admit/reject decisions of a sequence of calls, in order. -/
def rateRun (windowMs cap : Nat) (st : Option RateWindow) (ts : List Nat) :
    List Bool :=
  (rateRunSt windowMs cap st ts).1

/-- the window duration configured in the source: 15 minutes. -/
def windowMsConfig : Nat := 15 * 60 * 1000

/-- the capacity configured in the source: 100 requests per window per IP. -/
def capConfig : Nat := 100

/-- Modelled Express mount matching for `app.use(mount, middleware)`: the
middleware runs when the request path equals the mount or continues it at a
path-segment boundary. -/
def expressPathMatch (mount path : String) : Bool :=
  path.data == mount.data || (mount ++ "/").data.isPrefixOf path.data

/-- one chat message of the frontend store. -/
structure StoreMessage where
  id : String
  sender : String
  text : String
  timestamp : Nat
deriving DecidableEq, Repr

/-- the data held by the zustand chat store. -/
structure ChatStoreState where
  messages : List StoreMessage
  userName : String
deriving DecidableEq, Repr

/-- the module-level welcome message; its timestamp is the module load time,
passed as a parameter. -/
def welcomeMessage (t0 : Nat) : StoreMessage :=
  { id := "welcome", sender := "assistant",
    text := "👋 Hi there! How can I help you today?", timestamp := t0 }

/-- the store action addMessage: spread the previous messages and append one
new message built from the given sender and text with a freshly generated
id and the current time, both passed as parameters. -/
def addMessage (newId : String) (now : Nat) (sender text : String)
    (s : ChatStoreState) : ChatStoreState :=
  { s with messages :=
      s.messages ++ [{ id := newId, sender := sender, text := text, timestamp := now }] }

/-- the store action setUserName: replace only the userName field. -/
def setUserName (name : String) (s : ChatStoreState) : ChatStoreState :=
  { s with userName := name }

/-- the store action clearChat: reset to the single welcome message and an
empty userName. -/
def clearChat (t0 : Nat) (_s : ChatStoreState) : ChatStoreState :=
  { messages := [welcomeMessage t0], userName := "" }

/-- a well-formed upstream fragment record, paired with the content string
its JSON payload decodes to: the record characters hold no newline, the
parse yields a non-empty content, and the record is not the end marker. -/
def goodFrag (parse : List Char → ParseResult) (x : List Char × String) : Prop :=
  ('\n' ∉ x.1) ∧ parse x.1 = ParseResult.ok (some x.2) ∧ x.2 ≠ "" ∧ x.1 ≠ doneChars

/-- the upstream wire form of one fragment record: the data marker followed
by the payload characters. -/
def fragChunk (x : List Char × String) : List Char := dataMarker ++ x.1

/-- a corrupt upstream record: a newline-free data line whose payload is
not the end marker and fails to parse. -/
def malformedRecord (parse : List Char → ParseResult) (m : List Char) : Prop :=
  ('\n' ∉ m) ∧ dataMarker.isPrefixOf m = true ∧ m.drop 6 ≠ doneChars ∧
    parse (m.drop 6) = ParseResult.fail

instance (parse : List Char → ParseResult) (x : List Char × String) :
    Decidable (goodFrag parse x) := by
  unfold goodFrag
  infer_instance

instance (parse : List Char → ParseResult) (m : List Char) :
    Decidable (malformedRecord parse m) := by
  unfold malformedRecord
  infer_instance

/-- a parse oracle for concrete witnesses: every payload decodes to itself. -/
def echoParse (s : List Char) : ParseResult := ParseResult.ok (some (String.mk s))

/-- a parse oracle for concrete witnesses with one corrupt payload: the
single character x fails to parse, everything else decodes to itself. -/
def badParse (s : List Char) : ParseResult :=
  if s = ("x").data then ParseResult.fail
  else ParseResult.ok (some (String.mk s))

/-- whitespace for the JS string trim, as far as the claims exercise it. -/
def isWsChar (c : Char) : Bool :=
  c = ' ' || c = '\t' || c = '\n' || c = '\r'

/-- the character count of a string after trimming leading and trailing
whitespace, following the claim wording about trimmed length. -/
def trimmedLength (s : String) : Nat :=
  ((s.data.dropWhile isWsChar).reverse.dropWhile isWsChar).length

/-- the validation rule in the claim wording, amended to the raw (untrimmed)
message length: message present with length 1 to 1000, history defaulting
to empty with at most 50 turns, every role in the two-value set and every
content non-empty. Stated from the claim, to be compared with
`validatePayload` from the source. -/
def validPerClaim (p : ChatPayload) : Prop :=
  match p.message with
  | none => False
  | some m =>
    1 ≤ m.length ∧ m.length ≤ 1000 ∧ (p.history.getD []).length ≤ 50 ∧
      ∀ t ∈ p.history.getD [], (t.role = "user" ∨ t.role = "assistant") ∧ t.content ≠ ""

instance (p : ChatPayload) : Decidable (validPerClaim p) := by
  unfold validPerClaim
  cases p.message <;> infer_instance

/-- the client-visible status the claim assigns to each buffered upstream
outcome: 200 on success, 408 on timeout, 429 on an upstream 429, 500 on an
upstream 401 and on every other failure. -/
def claimedStatus : UpstreamOutcome → Nat
  | .success _ => 200
  | .timeout => 408
  | .httpError s => if s == 429 then 429 else 500
  | .networkError => 500

theorem splitNl_of_no_newline (l acc : List Char) (h : '\n' ∉ l) :
    splitNl acc l = [acc.reverse ++ l] := by
  induction l generalizing acc with
  | nil => simp [splitNl]
  | cons c cs ih =>
    have hc : ¬(c = '\n') := fun hc => h (hc ▸ List.mem_cons_self ..)
    have hcs : '\n' ∉ cs := fun hm => h (List.mem_cons_of_mem _ hm)
    simp [splitNl, hc, ih _ hcs]

theorem processLines_cons_frag (parse : List Char → ParseResult) (p : List Char)
    (f : String) (rest : List (List Char))
    (hp : parse p = ParseResult.ok (some f)) (hf : f ≠ "") (hd : p ≠ doneChars) :
    processLines parse ((dataMarker ++ p) :: rest)
      = (OutEvent.content f :: (processLines parse rest).1,
         (processLines parse rest).2) := by
  have hpre : dataMarker.isPrefixOf (dataMarker ++ p) = true := by
    simp [dataMarker, List.isPrefixOf]
  have hdrop : (dataMarker ++ p).drop 6 = p := List.drop_left dataMarker p
  simp [processLines, hpre, hdrop, hd, hp, hf]

theorem processChunks_frags_then (parse : List Char → ParseResult)
    (ps : List (List Char × String)) (tail : List (List Char))
    (h : ∀ x ∈ ps, goodFrag parse x) :
    processChunks parse (ps.map fragChunk ++ tail)
      = ((ps.map fun x => OutEvent.content x.2) ++ (processChunks parse tail).1,
         (processChunks parse tail).2) := by
  induction ps with
  | nil => simp
  | cons x ps ih =>
    obtain ⟨hnl, hp, hf, hd⟩ := h x (List.mem_cons_self ..)
    have hnl2 : '\n' ∉ fragChunk x := by
      intro hm
      rcases List.mem_append.mp hm with h1 | h1
      · exact absurd h1 (by decide)
      · exact hnl h1
    have hs : splitNl [] (dataMarker ++ x.1) = [dataMarker ++ x.1] := by
      simpa [fragChunk] using splitNl_of_no_newline _ [] hnl2
    have hline := processLines_cons_frag parse x.1 x.2 [] hp hf hd
    simp only [List.map_cons, List.cons_append, processChunks, fragChunk]
    rw [hs, hline]
    simp [processLines, ih (fun y hy => h y (List.mem_cons_of_mem _ hy))]

theorem processChunks_cons_done (parse : List Char → ParseResult)
    (rest : List (List Char)) :
    processChunks parse ((dataMarker ++ doneChars) :: rest)
      = ([OutEvent.doneMark], true) := rfl

theorem processChunks_cons_malformed (parse : List Char → ParseResult)
    (m : List Char) (rest : List (List Char)) (hm : malformedRecord parse m) :
    processChunks parse (m :: rest) = processChunks parse rest := by
  obtain ⟨hnl, hpre, hd, hp⟩ := hm
  have hs : splitNl [] m = [m] := by
    simpa using splitNl_of_no_newline m [] hnl
  simp [processChunks, hs, processLines, hpre, hd, hp]

theorem rateRunSt_all_admitted (w cap e c : Nat) (ts : List Nat)
    (h : ∀ t ∈ ts, t < e) (hcap : c + ts.length ≤ cap) :
    rateRunSt w cap (some ⟨e, c⟩) ts
      = (List.replicate ts.length true, some ⟨e, c + ts.length⟩) := by
  induction ts generalizing c with
  | nil => simp [rateRunSt]
  | cons t ts ih =>
    have ht : ¬(e ≤ t) := Nat.not_le.mpr (h t (List.mem_cons_self ..))
    have h1 : c + 1 + ts.length ≤ cap := by
      simp at hcap ⊢
      omega
    have hadm : decide (c + 1 ≤ cap) = true := by
      simp at hcap ⊢
      omega
    have hrec := ih (c + 1) (fun u hu => h u (List.mem_cons_of_mem _ hu)) h1
    simp [rateRunSt, rateStep, ht, hrec, hadm, List.replicate_succ]
    omega

theorem rateRunSt_append (w cap : Nat) (st : Option RateWindow)
    (l1 l2 : List Nat) :
    rateRunSt w cap st (l1 ++ l2)
      = ((rateRunSt w cap st l1).1
           ++ (rateRunSt w cap (rateRunSt w cap st l1).2 l2).1,
         (rateRunSt w cap (rateRunSt w cap st l1).2 l2).2) := by
  induction l1 generalizing st with
  | nil => simp [rateRunSt]
  | cons t l1 ih => simp [rateRunSt, ih]

/-- C1: the stream relay preserves order and terminates deterministically:
for an upstream delivery of well-formed fragment records followed by the
end marker, the client observes the fragment contents in exactly the
upstream order, with no reordering or coalescing, followed by exactly one
terminal marker; and for a delivery that ends with a stream error instead
of the end marker, the client observes the contents in order followed by
exactly one terminal error event. -/
theorem stream_relay_preserves_order (parse : List Char → ParseResult)
    (msg : String) (hist : Option (List HistoryTurn))
    (ps : List (List Char × String)) (e : Bool)
    (h : ∀ x ∈ ps, goodFrag parse x) :
    (chatStreamHandler parse msg hist
        (.opened (ps.map fragChunk ++ [dataMarker ++ doneChars]) e)).events
      = (ps.map fun x => OutEvent.content x.2) ++ [OutEvent.doneMark]
    ∧ (chatStreamHandler parse msg hist (.opened (ps.map fragChunk) true)).events
      = (ps.map fun x => OutEvent.content x.2)
          ++ [OutEvent.errorEvent "Stream error"] := by
  constructor
  · have hrun := processChunks_frags_then parse ps [dataMarker ++ doneChars] h
    rw [processChunks_cons_done] at hrun
    simp [chatStreamHandler, hrun]
  · have hrun := processChunks_frags_then parse ps [] h
    simp [processChunks] at hrun
    simp [chatStreamHandler, hrun]

/-- witness for C1 at a concrete two-fragment stream. -/
theorem stream_relay_preserves_order_w :
    (chatStreamHandler echoParse "Hello" none
        (.opened ([(("a").data, "a"), (("b").data, "b")].map fragChunk
            ++ [dataMarker ++ doneChars]) false)).events
      = [OutEvent.content "a", OutEvent.content "b", OutEvent.doneMark]
    ∧ (chatStreamHandler echoParse "Hello" none
        (.opened ([(("a").data, "a"), (("b").data, "b")].map fragChunk)
          true)).events
      = [OutEvent.content "a", OutEvent.content "b",
         OutEvent.errorEvent "Stream error"] := by
  have h := stream_relay_preserves_order echoParse "Hello" none
      [(("a").data, "a"), (("b").data, "b")] false (by decide)
  exact ⟨h.1, h.2⟩

/-- C7: a malformed individual upstream record is skipped without
terminating an otherwise healthy stream (the surrounding fragments and the
terminal marker are delivered as if the corrupt record were absent), while
a connection-level failure terminates the sequence with exactly one
terminal error event after the fragments already relayed. -/
theorem malformed_skipped_interrupt_terminal (parse : List Char → ParseResult)
    (msg : String) (hist : Option (List HistoryTurn))
    (a b : List (List Char × String)) (m : List Char)
    (ha : ∀ x ∈ a, goodFrag parse x) (hb : ∀ x ∈ b, goodFrag parse x)
    (hm : malformedRecord parse m) :
    (chatStreamHandler parse msg hist
        (.opened (a.map fragChunk
            ++ m :: (b.map fragChunk ++ [dataMarker ++ doneChars])) false)).events
      = ((a ++ b).map fun x => OutEvent.content x.2) ++ [OutEvent.doneMark]
    ∧ (chatStreamHandler parse msg hist (.opened (a.map fragChunk) true)).events
      = (a.map fun x => OutEvent.content x.2)
          ++ [OutEvent.errorEvent "Stream error"] := by
  constructor
  · have h1 := processChunks_frags_then parse a
        (m :: (b.map fragChunk ++ [dataMarker ++ doneChars])) ha
    have h2 := processChunks_cons_malformed parse m
        (b.map fragChunk ++ [dataMarker ++ doneChars]) hm
    have h3 := processChunks_frags_then parse b [dataMarker ++ doneChars] hb
    rw [processChunks_cons_done] at h3
    rw [h2, h3] at h1
    simp [chatStreamHandler, h1]
  · have hrun := processChunks_frags_then parse a [] ha
    simp [processChunks] at hrun
    simp [chatStreamHandler, hrun]

/-- witness for C7: a corrupt record between two healthy fragments. -/
theorem malformed_skipped_interrupt_terminal_w :
    (chatStreamHandler badParse "Hello" none
        (.opened ([(("a").data, "a")].map fragChunk
            ++ (dataMarker ++ ("x").data)
              :: ([(("b").data, "b")].map fragChunk
                  ++ [dataMarker ++ doneChars])) false)).events
      = [OutEvent.content "a", OutEvent.content "b", OutEvent.doneMark]
    ∧ (chatStreamHandler badParse "Hello" none
        (.opened ([(("a").data, "a")].map fragChunk) true)).events
      = [OutEvent.content "a", OutEvent.errorEvent "Stream error"] := by
  have h := malformed_skipped_interrupt_terminal badParse "Hello" none
      [(("a").data, "a")] [(("b").data, "b")] (dataMarker ++ ("x").data)
      (by decide) (by decide) (by decide)
  exact ⟨h.1, h.2⟩

/-- C9: on the streaming path every failure after the stream is opened is
reported inside the stream: the HTTP head is 200 in every outcome (never an
HTTP error status), a stream error appends exactly one embedded error event
after the events already delivered, which are left in place, and a failed
upstream open writes one embedded error event. -/
theorem stream_failures_embedded (parse : List Char → ParseResult)
    (msg : String) (hist : Option (List HistoryTurn))
    (chunks : List (List Char))
    (hnd : (processChunks parse chunks).2 = false) :
    (chatStreamHandler parse msg hist (.opened chunks true)).status = 200
    ∧ (chatStreamHandler parse msg hist (.opened chunks false)).status = 200
    ∧ (chatStreamHandler parse msg hist .openFailed).status = 200
    ∧ (chatStreamHandler parse msg hist (.opened chunks true)).events
      = (chatStreamHandler parse msg hist (.opened chunks false)).events
          ++ [OutEvent.errorEvent "Stream error"]
    ∧ (chatStreamHandler parse msg hist .openFailed).events
      = [OutEvent.errorEvent "Request failed"] := by
  simp [chatStreamHandler, hnd]

/-- witness for C9 at a concrete one-fragment stream. -/
theorem stream_failures_embedded_w :
    (chatStreamHandler echoParse "Hello" none
        (.opened [dataMarker ++ ("a").data] true)).status = 200
    ∧ (chatStreamHandler echoParse "Hello" none
        (.opened [dataMarker ++ ("a").data] true)).events
      = (chatStreamHandler echoParse "Hello" none
          (.opened [dataMarker ++ ("a").data] false)).events
          ++ [OutEvent.errorEvent "Stream error"] := by
  have h := stream_failures_embedded echoParse "Hello" none
      [dataMarker ++ ("a").data] (by decide)
  exact ⟨h.1, h.2.2.2.1⟩

/-- C2, counterexample: the claim measures the trimmed message length, but
the Joi schema measures the raw string; a message of one space passes
validation although its trimmed length is 0, outside the claimed range. -/
theorem validation_trimmed_cex :
    validatePayload { message := some " ", history := none } = true
    ∧ ¬(1 ≤ trimmedLength " ") := by decide

/-- C2, amended: validation succeeds exactly when the message is present
with raw (untrimmed) length in 1 to 1000 and the history, defaulting to
empty, has at most 50 turns with roles in the two-value set and non-empty
contents; and every payload that passes validation is forwarded unchanged,
the upstream messages being the system prompt, then the history turns in
their original order, then the user message. -/
theorem validation_forward_amended (p : ChatPayload) :
    (validatePayload p = true ↔ validPerClaim p)
    ∧ (∀ m k out, p.message = some m → validatePayload p = true →
        keyConfigured k = true →
        (chatHandler k p out).sent
          = systemTurn :: (p.history.getD []
              ++ [{ role := "user", content := m }])) := by
  obtain ⟨msg, hist⟩ := p
  constructor
  · cases msg with
    | none => simp [validatePayload, validPerClaim]
    | some m =>
      cases hist with
      | none => simp [validatePayload, validPerClaim]
      | some h =>
        simp [validatePayload, validPerClaim, List.all_eq_true, validTurn,
              and_assoc]
  · intro m k out hm hv hk
    cases msg with
    | none => exact absurd hm (by simp)
    | some m0 =>
      have hm0 : m0 = m := by
        injection hm
      subst hm0
      cases out <;>
        simp [chatHandler, hv, hk, sentMessages] <;>
        split <;> first | rfl | (split <;> rfl)

/-- witness for C2 at a concrete valid payload with one history turn. -/
theorem validation_forward_amended_w :
    (chatHandler (some "sk")
        { message := some "Hello",
          history := some [{ role := "user", content := "hi" }] }
        (.success "r")).sent
      = [systemTurn, { role := "user", content := "hi" },
         { role := "user", content := "Hello" }] := by
  exact (validation_forward_amended
      { message := some "Hello",
        history := some [{ role := "user", content := "hi" }] }).2
    "Hello" (some "sk") (.success "r") rfl (by decide) (by decide)

/-- C3: every payload that fails validation is answered with status 400 and
no upstream call is made. -/
theorem invalid_rejected_before_upstream (k : Option String) (p : ChatPayload)
    (out : UpstreamOutcome) (hv : validatePayload p = false) :
    (chatHandler k p out).status = 400
    ∧ (chatHandler k p out).upstreamCalled = false := by
  obtain ⟨msg, hist⟩ := p
  cases msg with
  | none => simp [chatHandler]
  | some m => simp [chatHandler, hv]

/-- witness for C3: a message of 1001 characters and an empty message are
both rejected with 400 and no upstream call. -/
theorem invalid_rejected_before_upstream_w :
    ((chatHandler none
        { message := some (String.mk (List.replicate 1001 'a')),
          history := none } .networkError).status = 400
      ∧ (chatHandler none
          { message := some (String.mk (List.replicate 1001 'a')),
            history := none } .networkError).upstreamCalled = false)
    ∧ ((chatHandler none { message := some "", history := none }
          .networkError).status = 400
      ∧ (chatHandler none { message := some "", history := none }
          .networkError).upstreamCalled = false) := by
  have hlen : (String.mk (List.replicate 1001 'a')).length = 1001 := by
    show (List.replicate 1001 'a').length = 1001
    exact List.length_replicate _ _
  have hv1 : validatePayload
      { message := some (String.mk (List.replicate 1001 'a')),
        history := none } = false := by
    have e : validatePayload
        { message := some (String.mk (List.replicate 1001 'a')),
          history := none }
        = (decide (1 ≤ (String.mk (List.replicate 1001 'a')).length)
            && decide ((String.mk (List.replicate 1001 'a')).length ≤ 1000)
            && true) := rfl
    rw [e, hlen]
    decide
  exact ⟨invalid_rejected_before_upstream none _ .networkError hv1,
         invalid_rejected_before_upstream none _ .networkError (by decide)⟩

/-- C5: for a validated request with a configured key, the buffered path
maps each upstream outcome to exactly one stable status: 200 on success,
408 on timeout, 429 on an upstream 429, 500 on an upstream 401 (with the
authentication error body) and 500 on any other failure. -/
theorem buffered_error_mapping (k : String) (p : ChatPayload)
    (out : UpstreamOutcome) (hv : validatePayload p = true) (hk : k ≠ "") :
    (chatHandler (some k) p out).status = claimedStatus out
    ∧ (chatHandler (some k) p (.httpError 401)).body
      = "Authentication failed" := by
  obtain ⟨msg, hist⟩ := p
  cases msg with
  | none => simp [validatePayload] at hv
  | some m =>
    have hkc : keyConfigured (some k) = true := by
      simp [keyConfigured, hk]
    refine ⟨?_, by simp [chatHandler, hv, hkc]⟩
    cases out with
    | success r => simp [chatHandler, hv, hkc, claimedStatus]
    | timeout => simp [chatHandler, hv, hkc, claimedStatus]
    | networkError => simp [chatHandler, hv, hkc, claimedStatus]
    | httpError s =>
      by_cases h429 : s = 429
      · subst h429
        simp [chatHandler, hv, hkc, claimedStatus]
      · by_cases h401 : s = 401
        · subst h401
          simp [chatHandler, hv, hkc, claimedStatus]
        · simp [chatHandler, hv, hkc, claimedStatus, h429, h401]

/-- witness for C5: a timeout maps to 408 and an upstream 401 to the 500
authentication error. -/
theorem buffered_error_mapping_w :
    (chatHandler (some "sk") { message := some "Hello", history := none }
        .timeout).status = 408
    ∧ (chatHandler (some "sk") { message := some "Hello", history := none }
        (.httpError 401)).body = "Authentication failed" := by
  have h := buffered_error_mapping "sk"
      { message := some "Hello", history := none } .timeout
      (by decide) (by decide)
  exact ⟨h.1, h.2⟩

/-- C8: with no API key configured, a valid POST body receives status 500
with the key-configuration error body and no upstream call is attempted,
whatever the upstream would have answered. -/
theorem missing_key_no_upstream (out : UpstreamOutcome) :
    (chatHandler none { message := some "Hello", history := none } out).status
      = 500
    ∧ (chatHandler none { message := some "Hello", history := none } out).body
      = "API key not configured"
    ∧ (chatHandler none { message := some "Hello", history := none }
        out).upstreamCalled = false := by
  have hv : validatePayload { message := some "Hello", history := none }
      = true := by decide
  cases out <;> simp [chatHandler, hv, keyConfigured]

/-- C6, counterexample: the claim says every call on either path is
validated and rate-checked before upstream dispatch, but the stream handler
dispatches upstream for a payload that fails validation, and the limiter
mount on the chat path does not match the chat-stream path. -/
theorem every_call_guarded_cex :
    validatePayload { message := some "", history := none } = false
    ∧ (chatStreamHandler echoParse "" none (.opened [] false)).dispatched
      = true
    ∧ expressPathMatch "/chat" "/chat-stream" = false
    ∧ expressPathMatch "/chat" "/chat" = true := by decide

/-- C6, amended: only the buffered path is guarded. The chat handler
dispatches upstream exactly when validation succeeds and the key is
configured, and the limiter mount matches the chat path; the chat-stream
handler always dispatches upstream, and the limiter mount does not match
the chat-stream path. -/
theorem every_call_guarded_amended :
    (∀ k p out, (chatHandler k p out).upstreamCalled
      = (validatePayload p && keyConfigured k))
    ∧ expressPathMatch "/chat" "/chat" = true
    ∧ expressPathMatch "/chat" "/chat-stream" = false
    ∧ (∀ parse msg hist oc,
        (chatStreamHandler parse msg hist oc).dispatched = true) := by
  refine ⟨?_, by decide, by decide, ?_⟩
  · intro k p out
    obtain ⟨msg, hist⟩ := p
    cases msg with
    | none => simp [chatHandler, validatePayload]
    | some m =>
      by_cases hv : validatePayload { message := some m, history := hist }
      · by_cases hk : keyConfigured k
        · cases out <;>
            simp [chatHandler, hv, hk] <;>
            split <;> first | rfl | (split <;> rfl)
        · simp [chatHandler, hv, hk]
      · simp [chatHandler, hv]
  · intro parse msg hist oc
    cases oc <;> simp [chatStreamHandler]

/-- C4: the fixed-window limiter with the configured 15-minute window and
capacity 100 admits the first 100 requests of one identity inside a window,
rejects the 101st, and admits a request issued once the window has
elapsed. -/
theorem fixed_window_limiter (t0 : Nat) (tsMid : List Nat) (tLast tNew : Nat)
    (hlen : tsMid.length = 99)
    (hmid : ∀ t ∈ tsMid, t < t0 + windowMsConfig)
    (hlast : tLast < t0 + windowMsConfig)
    (hnew : t0 + windowMsConfig ≤ tNew) :
    rateRun windowMsConfig capConfig none (t0 :: (tsMid ++ [tLast, tNew]))
      = true :: (List.replicate 99 true ++ [false, true]) := by
  have hmidrun := rateRunSt_all_admitted windowMsConfig capConfig
      (t0 + windowMsConfig) 1 tsMid hmid (by rw [hlen]; decide)
  have htail : rateRunSt windowMsConfig capConfig
      (some ⟨t0 + windowMsConfig, 1 + tsMid.length⟩) [tLast, tNew]
      = ([false, true],
         some ⟨tNew + windowMsConfig, 1⟩) := by
    rw [hlen]
    have hl : ¬(t0 + windowMsConfig ≤ tLast) := Nat.not_le.mpr hlast
    simp [rateRunSt, rateStep, hl, hnew, capConfig]
  unfold rateRun
  show (rateRunSt windowMsConfig capConfig
      (some ⟨t0 + windowMsConfig, 1⟩) (tsMid ++ [tLast, tNew])).1.cons true
    = _
  rw [rateRunSt_append, hmidrun, htail, hlen]

/-- witness for C4: 100 requests at time 0 admitted except none, the 101st
at time 0 rejected, and one more at the end of the window admitted. -/
theorem fixed_window_limiter_w :
    rateRun windowMsConfig capConfig none
        (0 :: (List.replicate 99 0 ++ [0, windowMsConfig]))
      = true :: (List.replicate 99 true ++ [false, true]) := by
  exact fixed_window_limiter 0 (List.replicate 99 0) 0 windowMsConfig
    (by decide) (by decide) (by decide) (by decide)

/-- C10: addMessage appends exactly one message built from the given sender
and text with the supplied fresh id and time at the end of the list,
leaving the stored messages and the user name unchanged; setUserName
changes only the user name; clearChat resets the state to the single
welcome message and an empty user name. -/
theorem store_frame_effects (i : String) (now t0 : Nat)
    (sd tx nm : String) (s : ChatStoreState) :
    (addMessage i now sd tx s).messages
      = s.messages ++ [{ id := i, sender := sd, text := tx, timestamp := now }]
    ∧ (addMessage i now sd tx s).userName = s.userName
    ∧ (setUserName nm s).messages = s.messages
    ∧ (setUserName nm s).userName = nm
    ∧ clearChat t0 s
      = { messages := [welcomeMessage t0], userName := "" } := by
  simp [addMessage, setUserName, clearChat]

end MyChatbot
